import Mathlib

/-
Verification of the periodic-update scheduler and resource-lifecycle core of
the tkinter camera/telemetry dashboard (src/main.py).

The embedding models the `App` class as an explicit state record, each
update callback (`update_video`, `update_memory_chart`, `update_cpu_load`,
`update_gpu_load`) as a state transformer, the graceful-shutdown method
(`cleanup`) and destructor (`__del__`) as state transformers with explicit
fault injection for the external release primitives, and the single-threaded
tkinter event loop as a step relation that fires pending `after`-timers.

External collaborators (OpenCV capture, psutil, GPUtil, tkinter, matplotlib)
are represented by their results: a camera-read script, optional sensor
readings (`none` = the read raised), and boolean fault flags for the
release-time primitives.  Python float arithmetic is modelled by exact
rationals; `int()` on the positive values that occur here is `Int.floor`.
-/

namespace CameraDashboard

/-- Gauge color tier implied by the progress-bar color chosen in
`update_cpu_load` (src/main.py:231-236) and `update_gpu_load`
(src/main.py:269-274). -/
inductive Tier
  | high
  | medium
  | normal
deriving DecidableEq, Repr

/-- Load percentage to tier: the code tests `if percent > 80` then
`elif percent > 60` then `else` (src/main.py:231-236, 269-274). -/
def loadTier (p : ℚ) : Tier :=
  if p > 80 then .high else if p > 60 then .medium else .normal

/-- Progress-bar background colors used by the two gauges. -/
inductive BarColor
  | red
  | orange
  | blue
  | green
deriving DecidableEq, Repr

/-- CPU gauge color per tier: red `#FF5252`, orange `#FFA726`, blue `#2196F3`
(src/main.py:231-236). -/
def cpuTierColor : Tier → BarColor
  | .high => .red
  | .medium => .orange
  | .normal => .blue

/-- GPU gauge color per tier: red, orange, green `#4CAF50`
(src/main.py:269-274). -/
def gpuTierColor : Tier → BarColor
  | .high => .red
  | .medium => .orange
  | .normal => .green

/-- Content of the CPU label (`self.cpu_label`). -/
inductive CpuLabel
  | initText
  | loadText (percent freqGHz : ℚ)
  | errorText
deriving DecidableEq, Repr

/-- Content of the GPU label (`self.gpu_label`). -/
inductive GpuLabel
  | initText
  | loadText (percent memMB tempC : ℚ)
  | notDetected
  | errorText
deriving DecidableEq, Repr

/-- One GPU as reported by `GPUtil.getGPUs()`: `load` is a 0..1 fraction
(the code multiplies by 100), `memoryUsed` in MB, `temperature` in Celsius. -/
structure GpuInfo where
  load : ℚ
  memoryUsed : ℚ
  temperature : ℚ
deriving DecidableEq, Repr

/-- The bitmap handed to the video label: which camera frame it came from,
the resize target dimensions, and the fixed presentation transforms applied
(BGR→RGB conversion, horizontal mirror) (src/main.py:152-179). -/
structure Bitmap where
  frame : Nat
  width : ℤ
  height : ℤ
  mirrored : Bool
  rgb : Bool
deriving DecidableEq, Repr

/-- The `cv2.VideoCapture` handle.  `releaseCount` counts `release()` calls;
`releasedWhileClosed` counts `release()` calls made while `isOpened()` was
already false (the code never makes such a call; the counter witnesses it). -/
structure Cap where
  opened : Bool
  releaseCount : Nat
  releasedWhileClosed : Nat
deriving DecidableEq, Repr

/-- `cap.isOpened()`. -/
def Cap.isOpened (c : Cap) : Bool := c.opened

/-- `cap.release()`: closes the device. -/
def Cap.release (c : Cap) : Cap :=
  if c.opened then
    { c with opened := false, releaseCount := c.releaseCount + 1 }
  else
    { c with releaseCount := c.releaseCount + 1,
             releasedWhileClosed := c.releasedWhileClosed + 1 }

/-- The display surface: video label image, pie-chart axes and drawn canvas,
CPU/GPU labels, gauges and colors.  The `…Writes` fields count writes made to
each part of the surface. -/
structure Display where
  image : Option Bitmap
  imageWrites : Nat
  axesPie : Option (ℚ × ℚ)
  canvasPie : Option (ℚ × ℚ)
  chartDraws : Nat
  cpuLabel : CpuLabel
  cpuBar : ℚ
  cpuColor : BarColor
  cpuWrites : Nat
  gpuLabel : GpuLabel
  gpuBar : ℚ
  gpuColor : BarColor
  gpuWrites : Nat
deriving DecidableEq, Repr

/-- The state of the `App` instance together with its host window.
`videoId`/… hold the last `after` id assigned to each task attribute (the
code never nulls them); `videoPending`/… record whether that timer is still
pending in the event queue.  `nextId` is the id the next `after` call will
return, so it also counts scheduled-handle allocations. -/
structure AppState where
  running : Bool
  videoId : Option Nat
  memoryId : Option Nat
  cpuId : Option Nat
  gpuId : Option Nat
  videoPending : Bool
  memoryPending : Bool
  cpuPending : Bool
  gpuPending : Bool
  nextId : Nat
  camReads : Nat
  cap : Cap
  display : Display
  figClosed : Bool
  quitCalled : Bool
  windowAlive : Bool
  logs : Nat
  memRaises : Nat
deriving DecidableEq, Repr

/-- Target-dimension computation of `update_video` (src/main.py:156-170):
clamp the window size minus padding to 320×240, then shrink one dimension to
restore the 4:3 aspect.  Python's `int()` truncates; both truncated values
here are positive, so truncation is `Int.floor`. -/
def computeTargetDims (windowWidth windowHeight : ℤ) : ℤ × ℤ :=
  let targetWidth : ℤ := max 320 (windowWidth - 4)
  let targetHeight : ℤ := max 240 (windowHeight - 4)
  if (targetWidth : ℚ) / (targetHeight : ℚ) > 4 / 3 then
    (⌊(targetHeight : ℚ) * (4 / 3)⌋, targetHeight)
  else
    (targetWidth, ⌊(targetWidth : ℚ) / (4 / 3)⌋)

/-- `self.root.after(10, self.update_video)` (src/main.py:186). -/
def schedVideo (s : AppState) : AppState :=
  { s with videoId := some s.nextId, videoPending := true, nextId := s.nextId + 1 }

/-- `self.root.after(1000, self.update_memory_chart)` (src/main.py:214). -/
def schedMemory (s : AppState) : AppState :=
  { s with memoryId := some s.nextId, memoryPending := true, nextId := s.nextId + 1 }

/-- `self.root.after(1000, self.update_cpu_load)` (src/main.py:245). -/
def schedCpu (s : AppState) : AppState :=
  { s with cpuId := some s.nextId, cpuPending := true, nextId := s.nextId + 1 }

/-- `self.root.after(1000, self.update_gpu_load)` (src/main.py:286). -/
def schedGpu (s : AppState) : AppState :=
  { s with gpuId := some s.nextId, gpuPending := true, nextId := s.nextId + 1 }

/-- One body of `App.update_video` (src/main.py:147-186).  `scr n` says
whether the n-th `cap.read()` call returns a frame; a closed device always
returns `ret = False`.  On `ret` the frame is converted to RGB, mirrored,
resized to `computeTargetDims` and written to the video label; the task then
reschedules itself whenever `running` holds — a failed read skips only the
rendering block. -/
def update_video (scr : Nat → Bool) (windowWidth windowHeight : ℤ)
    (s : AppState) : AppState :=
  if s.running = false then s
  else
    let ret := s.cap.opened && scr s.camReads
    let frameIx := s.camReads
    let s1 := { s with camReads := s.camReads + 1 }
    let s2 :=
      if ret then
        let td := computeTargetDims windowWidth windowHeight
        { s1 with display := { s1.display with
            image := some { frame := frameIx, width := td.1, height := td.2,
                            mirrored := true, rgb := true },
            imageWrites := s1.display.imageWrites + 1 } }
      else s1
    if s2.running then schedVideo s2 else s2

/-- One body of `App.update_memory_chart` (src/main.py:188-214).  `mem` is
the `psutil.virtual_memory()` result in bytes, `none` when the read raises.
The function has no try/except: the returned flag is `true` when the firing
raised (after `ax.clear()` already ran), in which case nothing was drawn and
no reschedule happened. -/
def update_memory_chart (mem : Option (ℚ × ℚ)) (s : AppState) :
    AppState × Bool :=
  if s.running = false then (s, false)
  else
    let s1 := { s with display := { s.display with axesPie := none } }
    match mem with
    | none => (s1, true)
    | some (usedBytes, availBytes) =>
      let used := usedBytes / (1024 * 1024 * 1024)
      let avail := availBytes / (1024 * 1024 * 1024)
      let s2 := { s1 with display := { s1.display with
                    axesPie := some (used, avail) } }
      let s3 := { s2 with display := { s2.display with
                    canvasPie := some (used, avail),
                    chartDraws := s2.display.chartDraws + 1 } }
      if s3.running then (schedMemory s3, false) else (s3, false)

/-- One body of `App.update_cpu_load` (src/main.py:216-245).  `cpu` is
`(percent, freqMHz)` from psutil; `none` means the read raised, which the
function's try/except turns into an error label and a zero gauge, plus a
printed log line; it reschedules either way. -/
def update_cpu_load (cpu : Option (ℚ × ℚ)) (s : AppState) : AppState :=
  if s.running = false then s
  else
    let s1 :=
      match cpu with
      | some (percent, freqMHz) =>
        { s with display := { s.display with
            cpuBar := percent,
            cpuLabel := .loadText percent (freqMHz / 1000),
            cpuColor := cpuTierColor (loadTier percent),
            cpuWrites := s.display.cpuWrites + 1 } }
      | none =>
        { s with logs := s.logs + 1,
                 display := { s.display with
                   cpuLabel := .errorText,
                   cpuBar := 0,
                   cpuWrites := s.display.cpuWrites + 1 } }
    if s1.running then schedCpu s1 else s1

/-- One body of `App.update_gpu_load` (src/main.py:247-286).  `gpus` is the
`GPUtil.getGPUs()` result; `none` means the read raised (caught: error label,
zero gauge, logged); an empty list is the distinct "Not detected" state; it
reschedules in every case. -/
def update_gpu_load (gpus : Option (List GpuInfo)) (s : AppState) : AppState :=
  if s.running = false then s
  else
    let s1 :=
      match gpus with
      | some (g :: _) =>
        let gpuLoad := g.load * 100
        { s with display := { s.display with
            gpuBar := gpuLoad,
            gpuLabel := .loadText gpuLoad g.memoryUsed g.temperature,
            gpuColor := gpuTierColor (loadTier gpuLoad),
            gpuWrites := s.display.gpuWrites + 1 } }
      | some [] =>
        { s with display := { s.display with
            gpuLabel := .notDetected,
            gpuBar := 0,
            gpuWrites := s.display.gpuWrites + 1 } }
      | none =>
        { s with logs := s.logs + 1,
                 display := { s.display with
                   gpuLabel := .errorText,
                   gpuBar := 0,
                   gpuWrites := s.display.gpuWrites + 1 } }
    if s1.running then schedGpu s1 else s1

/-- A pending video timer fires: the handle is consumed by the event loop,
then the callback body runs. -/
def fireVideo (scr : Nat → Bool) (ww wh : ℤ) (s : AppState) : AppState :=
  update_video scr ww wh { s with videoPending := false }

/-- A pending memory timer fires; an exception escaping the callback is
swallowed by the tkinter callback dispatcher and counted in `memRaises`. -/
def fireMemory (mem : Option (ℚ × ℚ)) (s : AppState) : AppState :=
  let r := update_memory_chart mem { s with memoryPending := false }
  if r.2 then { r.1 with memRaises := r.1.memRaises + 1 } else r.1

/-- A pending CPU timer fires. -/
def fireCpu (cpu : Option (ℚ × ℚ)) (s : AppState) : AppState :=
  update_cpu_load cpu { s with cpuPending := false }

/-- A pending GPU timer fires. -/
def fireGpu (gpus : Option (List GpuInfo)) (s : AppState) : AppState :=
  update_gpu_load gpus { s with gpuPending := false }

/-- Fault injection for the external primitives `cleanup` calls: each flag
makes the corresponding call raise (the first guarded `after_cancel`, the
camera `release`, `plt.close`, `root.quit`, `root.destroy`). -/
structure Faults where
  cancelFails : Bool
  releaseFails : Bool
  closeFigFails : Bool
  quitFails : Bool
  destroyFails : Bool
deriving DecidableEq, Repr

/-- All external calls succeed. -/
def noFaults : Faults :=
  { cancelFails := false, releaseFails := false, closeFigFails := false,
    quitFails := false, destroyFails := false }

/-- Sequencing of fallible cleanup steps: an exception aborts the rest of the
try block and carries the state reached so far. -/
def andThen (x : Except AppState AppState)
    (f : AppState → Except AppState AppState) : Except AppState AppState :=
  match x with
  | .error t => .error t
  | .ok t => f t

/-- `if self.video_task: self.root.after_cancel(self.video_task)`
(src/main.py:314-315).  `after_cancel` goes through the Tcl interpreter, so
besides the injected fault it raises `TclError` when the window has already
been destroyed (the task attribute is never nulled, so a stale id keeps the
guard truthy). -/
def cancelStepVideo (F : Faults) (s : AppState) : Except AppState AppState :=
  if s.videoId.isSome then
    (if F.cancelFails || !s.windowAlive then .error s
     else .ok { s with videoPending := false })
  else .ok s

/-- src/main.py:316-317; raises on a destroyed window like the video one. -/
def cancelStepMemory (F : Faults) (s : AppState) : Except AppState AppState :=
  if s.memoryId.isSome then
    (if F.cancelFails || !s.windowAlive then .error s
     else .ok { s with memoryPending := false })
  else .ok s

/-- src/main.py:318-319; raises on a destroyed window like the video one. -/
def cancelStepCpu (F : Faults) (s : AppState) : Except AppState AppState :=
  if s.cpuId.isSome then
    (if F.cancelFails || !s.windowAlive then .error s
     else .ok { s with cpuPending := false })
  else .ok s

/-- src/main.py:320-321; raises on a destroyed window like the video one. -/
def cancelStepGpu (F : Faults) (s : AppState) : Except AppState AppState :=
  if s.gpuId.isSome then
    (if F.cancelFails || !s.windowAlive then .error s
     else .ok { s with gpuPending := false })
  else .ok s

/-- `if self.cap and self.cap.isOpened(): self.cap.release()`
(src/main.py:323-325). -/
def releaseStep (F : Faults) (s : AppState) : Except AppState AppState :=
  if s.cap.isOpened then
    (if F.releaseFails then .error s else .ok { s with cap := s.cap.release })
  else .ok s

/-- `plt.close(self.fig)` (src/main.py:327-329). -/
def closeFigStep (F : Faults) (s : AppState) : Except AppState AppState :=
  if F.closeFigFails then .error s else .ok { s with figClosed := true }

/-- `for task in self.root.tk.call('after', 'info'): self.root.after_cancel(task)`
(src/main.py:331-333): a Tcl call, so it raises `TclError` when the window
has already been destroyed; otherwise it cancels every timer still
pending. -/
def afterInfoStep (s : AppState) : Except AppState AppState :=
  if !s.windowAlive then .error s
  else .ok { s with videoPending := false, memoryPending := false,
                    cpuPending := false, gpuPending := false }

/-- `self.root.quit()` (src/main.py:336): sets the interpreter's quit flag at
the C level without a Tcl call, so it does not raise on an
already-destroyed window; only the injected fault makes it raise. -/
def quitStep (F : Faults) (s : AppState) : Except AppState AppState :=
  if F.quitFails then .error s else .ok { s with quitCalled := true }

/-- `self.root.destroy()` (src/main.py:337): a Tcl call — raises `TclError`
on an already-destroyed window, besides the injected fault. -/
def destroyStep (F : Faults) (s : AppState) : Except AppState AppState :=
  if F.destroyFails || !s.windowAlive then .error s
  else .ok { s with windowAlive := false }

/-- The try block of `App.cleanup` (src/main.py:309-337): set `running`
false, cancel the four task timers, release the camera if open, close the
figure, clear remaining timers, quit and destroy the window. -/
def cleanupBody (F : Faults) (s0 : AppState) : Except AppState AppState :=
  andThen (cancelStepVideo F { s0 with running := false }) (fun s =>
  andThen (cancelStepMemory F s) (fun s =>
  andThen (cancelStepCpu F s) (fun s =>
  andThen (cancelStepGpu F s) (fun s =>
  andThen (releaseStep F s) (fun s =>
  andThen (closeFigStep F s) (fun s =>
  andThen (afterInfoStep s) (fun s =>
  andThen (quitStep F s) (fun s =>
  destroyStep F s))))))))

/-- `App.cleanup` (src/main.py:307-343): the try block above with one
catch-all except handler that logs and force-quits; the handler's own
`quit`/`destroy` calls are unprotected, so a failing `destroy` — by injected
fault or because the window is already destroyed — propagates to the caller
(second component `true` = cleanup raised). -/
def cleanup (F : Faults) (s : AppState) : AppState × Bool :=
  match cleanupBody F s with
  | .ok t => (t, false)
  | .error t =>
    let t := { t with logs := t.logs + 1 }
    if F.quitFails then (t, true)
    else
      let t := { t with quitCalled := true }
      if F.destroyFails || !t.windowAlive then (t, true)
      else ({ t with windowAlive := false }, false)

/-- `App.__del__` (src/main.py:345-348): release the camera at collection
time if it is still open. -/
def appDel (s : AppState) : AppState :=
  if s.cap.isOpened then { s with cap := s.cap.release } else s

/-- The widget state built by `App.__init__` before the capture is opened:
blank video label, no chart, initial labels and colors, no tasks scheduled,
`running = True` (src/main.py:28-118). -/
def display0 : Display :=
  { image := none, imageWrites := 0, axesPie := none, canvasPie := none,
    chartDraws := 0, cpuLabel := .initText, cpuBar := 0, cpuColor := .blue,
    cpuWrites := 0, gpuLabel := .initText, gpuBar := 0, gpuColor := .green,
    gpuWrites := 0 }

/-- State right after `cv2.VideoCapture(0)` with the given open outcome. -/
def initState (camOpens : Bool) : AppState :=
  { running := true,
    videoId := none, memoryId := none, cpuId := none, gpuId := none,
    videoPending := false, memoryPending := false, cpuPending := false,
    gpuPending := false,
    nextId := 0, camReads := 0,
    cap := { opened := camOpens, releaseCount := 0, releasedWhileClosed := 0 },
    display := display0,
    figClosed := false, quitCalled := false, windowAlive := true,
    logs := 0, memRaises := 0 }

/-- The capture-initialization tail of `App.__init__` (src/main.py:120-128):
if the capture failed to open, print an error and start nothing; otherwise
call the four update methods once, each of which schedules its own loop.  A
raise escaping `update_memory_chart` aborts `__init__` (flag `true`). -/
def appInit (camOpens : Bool) (scr : Nat → Bool) (ww wh : ℤ)
    (mem : Option (ℚ × ℚ)) (cpu : Option (ℚ × ℚ))
    (gpus : Option (List GpuInfo)) : AppState × Bool :=
  let s := initState camOpens
  if s.cap.isOpened = false then ({ s with logs := s.logs + 1 }, false)
  else
    let s := update_video scr ww wh s
    match update_memory_chart mem s with
    | (t, true) => (t, true)
    | (t, false) =>
      let t := update_cpu_load cpu t
      let t := update_gpu_load gpus t
      (t, false)

/-- The four DisplaySurface write counters: image writes, chart draws, CPU
gauge writes, GPU gauge writes. -/
def writesOf (s : AppState) : Nat × Nat × Nat × Nat :=
  (s.display.imageWrites, s.display.chartDraws,
   s.display.cpuWrites, s.display.gpuWrites)

/-- One event of the single-threaded tkinter loop: a pending timer fires
(consuming its handle, then running the callback with some read result), or
the close handler `cleanup` runs (with some fault outcome). -/
inductive Step : AppState → AppState → Prop
  | video (scr : Nat → Bool) (ww wh : ℤ) {s : AppState}
      (h : s.videoPending = true) : Step s (fireVideo scr ww wh s)
  | memory (mem : Option (ℚ × ℚ)) {s : AppState}
      (h : s.memoryPending = true) : Step s (fireMemory mem s)
  | cpu (c : Option (ℚ × ℚ)) {s : AppState}
      (h : s.cpuPending = true) : Step s (fireCpu c s)
  | gpu (g : Option (List GpuInfo)) {s : AppState}
      (h : s.gpuPending = true) : Step s (fireGpu g s)
  | close (F : Faults) {s : AppState} : Step s (cleanup F s).1
  | collect {s : AppState} : Step s (appDel s)

/-- Finitely many events of the loop. -/
inductive Steps : AppState → AppState → Prop
  | refl (s : AppState) : Steps s s
  | tail {s t u : AppState} : Steps s t → Step t u → Steps s u

/-- Camera stub of the end-to-end scenario: the read succeeds for the first
3 frames, then the device reports closed. -/
def camStub3 : Nat → Bool := fun n => n < 3

/-- A camera read that always fails. -/
def camStubDead : Nat → Bool := fun _ => false

/-- Running state with the camera task registered, as after the first
scheduling of `update_video`. -/
def sCam : AppState :=
  { initState true with videoPending := true, videoId := some 0, nextId := 1 }

/-- The camera task after `n` scheduled firings against `camStub3`, in a
450×670 window (the configured geometry). -/
def camTaskRun (n : Nat) : AppState :=
  (fun s => fireVideo camStub3 450 670 s)^[n] sCam

/-- Running state with the three telemetry tasks registered. -/
def sTele : AppState :=
  { initState true with
      memoryPending := true, memoryId := some 0,
      cpuPending := true, cpuId := some 1,
      gpuPending := true, gpuId := some 2, nextId := 3 }

/-- Only the camera `release` raises. -/
def relFault : Faults := { noFaults with releaseFails := true }

/-- Only `root.quit` raises. -/
def quitFault : Faults := { noFaults with quitFails := true }

/-- Only `plt.close` raises. -/
def figFault : Faults := { noFaults with closeFigFails := true }

/-- Outcome of `__init__` when the capture fails to open, with arbitrary
healthy collaborators. -/
def initNoCam : AppState :=
  (appInit false camStub3 450 670 (some (2147483648, 4294967296))
    (some (25, 2400)) (some [])).1

/-- Fields that no part of `cleanup` ever modifies — the display surface,
the handle allocator, the camera-read count, the unguarded-release counter —
together with the `running` flag, which `cleanup` clears in its first
statement and never restores. -/
def Pres (s0 t : AppState) : Prop :=
  t.nextId = s0.nextId ∧ t.display = s0.display ∧
  t.cap.releasedWhileClosed = s0.cap.releasedWhileClosed ∧
  t.running = false ∧ t.camReads = s0.camReads

/-- `Pres` lifted over a fallible step outcome. -/
def PresE (s0 : AppState) : Except AppState AppState → Prop
  | .ok t => Pres s0 t
  | .error t => Pres s0 t

/-- The window is still alive in either outcome of a step. -/
def AliveE : Except AppState AppState → Prop
  | .ok t => t.windowAlive = true
  | .error t => t.windowAlive = true

/-- The window is still alive in the state an exception carries; the
successful outcome is unconstrained (the final `destroy` step succeeds by
closing the window). -/
def AliveErr : Except AppState AppState → Prop
  | .ok _ => True
  | .error t => t.windowAlive = true

/- ------------------------------------------------------------------ -/
/- Helper lemmas                                                      -/
/- ------------------------------------------------------------------ -/

theorem presE_andThen {s0 : AppState} {x : Except AppState AppState}
    {f : AppState → Except AppState AppState} (hx : PresE s0 x)
    (hf : ∀ t, Pres s0 t → PresE s0 (f t)) : PresE s0 (andThen x f) := by
  cases x with
  | ok t => exact hf t hx
  | error t => exact hx

theorem pres_cancel_video {s0 : AppState} (F : Faults) (t : AppState)
    (h : Pres s0 t) : PresE s0 (cancelStepVideo F t) := by
  unfold cancelStepVideo
  split_ifs <;> exact h

theorem pres_cancel_memory {s0 : AppState} (F : Faults) (t : AppState)
    (h : Pres s0 t) : PresE s0 (cancelStepMemory F t) := by
  unfold cancelStepMemory
  split_ifs <;> exact h

theorem pres_cancel_cpu {s0 : AppState} (F : Faults) (t : AppState)
    (h : Pres s0 t) : PresE s0 (cancelStepCpu F t) := by
  unfold cancelStepCpu
  split_ifs <;> exact h

theorem pres_cancel_gpu {s0 : AppState} (F : Faults) (t : AppState)
    (h : Pres s0 t) : PresE s0 (cancelStepGpu F t) := by
  unfold cancelStepGpu
  split_ifs <;> exact h

theorem pres_release {s0 : AppState} (F : Faults) (t : AppState)
    (h : Pres s0 t) : PresE s0 (releaseStep F t) := by
  unfold releaseStep Cap.isOpened
  split_ifs with hg hf
  · exact h
  · exact ⟨h.1, h.2.1, by simpa [Cap.release, hg] using h.2.2.1,
      h.2.2.2.1, h.2.2.2.2⟩
  · exact h

theorem pres_closeFig {s0 : AppState} (F : Faults) (t : AppState)
    (h : Pres s0 t) : PresE s0 (closeFigStep F t) := by
  unfold closeFigStep
  split_ifs <;> exact h

theorem pres_afterInfo {s0 : AppState} (t : AppState)
    (h : Pres s0 t) : PresE s0 (afterInfoStep t) := by
  unfold afterInfoStep
  split_ifs <;> exact h

theorem pres_quit {s0 : AppState} (F : Faults) (t : AppState)
    (h : Pres s0 t) : PresE s0 (quitStep F t) := by
  unfold quitStep
  split_ifs <;> exact h

theorem pres_destroy {s0 : AppState} (F : Faults) (t : AppState)
    (h : Pres s0 t) : PresE s0 (destroyStep F t) := by
  unfold destroyStep
  split_ifs <;> exact h

theorem cleanupBody_pres (F : Faults) (s : AppState) :
    PresE s (cleanupBody F s) := by
  unfold cleanupBody
  have h0 : Pres s { s with running := false } := ⟨rfl, rfl, rfl, rfl, rfl⟩
  refine presE_andThen (pres_cancel_video F _ h0) (fun t1 h1 => ?_)
  refine presE_andThen (pres_cancel_memory F _ h1) (fun t2 h2 => ?_)
  refine presE_andThen (pres_cancel_cpu F _ h2) (fun t3 h3 => ?_)
  refine presE_andThen (pres_cancel_gpu F _ h3) (fun t4 h4 => ?_)
  refine presE_andThen (pres_release F _ h4) (fun t5 h5 => ?_)
  refine presE_andThen (pres_closeFig F _ h5) (fun t6 h6 => ?_)
  refine presE_andThen (pres_afterInfo _ h6) (fun t7 h7 => ?_)
  refine presE_andThen (pres_quit F _ h7) (fun t8 h8 => ?_)
  exact pres_destroy F _ h8

theorem cleanup_preserves (F : Faults) (s : AppState) :
    Pres s (cleanup F s).1 := by
  have hbody := cleanupBody_pres F s
  unfold cleanup
  cases hb : cleanupBody F s with
  | ok t =>
    rw [hb] at hbody
    exact hbody
  | error t =>
    rw [hb] at hbody
    have ht : Pres s t := hbody
    dsimp only
    split_ifs <;> exact ht

theorem andThen_ok {x : Except AppState AppState}
    {f : AppState → Except AppState AppState} {t : AppState}
    (h : andThen x f = .ok t) : ∃ u, x = .ok u ∧ f u = .ok t := by
  cases x with
  | ok u => exact ⟨u, rfl, h⟩
  | error u => exact absurd h (by simp [andThen])

theorem cancelStepVideo_ok_inv {F : Faults} {t u : AppState}
    (h : cancelStepVideo F t = .ok u) : u.cap = t.cap := by
  unfold cancelStepVideo at h
  by_cases hg : t.videoId.isSome = true
  · rw [if_pos hg] at h
    by_cases hf : (F.cancelFails || !t.windowAlive) = true
    · rw [if_pos hf] at h
      exact Except.noConfusion h
    rw [if_neg hf] at h
    injection h with he
    subst he
    rfl
  · rw [if_neg hg] at h
    injection h with he
    subst he
    rfl

theorem cancelStepMemory_ok_inv {F : Faults} {t u : AppState}
    (h : cancelStepMemory F t = .ok u) : u.cap = t.cap := by
  unfold cancelStepMemory at h
  by_cases hg : t.memoryId.isSome = true
  · rw [if_pos hg] at h
    by_cases hf : (F.cancelFails || !t.windowAlive) = true
    · rw [if_pos hf] at h
      exact Except.noConfusion h
    rw [if_neg hf] at h
    injection h with he
    subst he
    rfl
  · rw [if_neg hg] at h
    injection h with he
    subst he
    rfl

theorem cancelStepCpu_ok_inv {F : Faults} {t u : AppState}
    (h : cancelStepCpu F t = .ok u) : u.cap = t.cap := by
  unfold cancelStepCpu at h
  by_cases hg : t.cpuId.isSome = true
  · rw [if_pos hg] at h
    by_cases hf : (F.cancelFails || !t.windowAlive) = true
    · rw [if_pos hf] at h
      exact Except.noConfusion h
    rw [if_neg hf] at h
    injection h with he
    subst he
    rfl
  · rw [if_neg hg] at h
    injection h with he
    subst he
    rfl

theorem cancelStepGpu_ok_inv {F : Faults} {t u : AppState}
    (h : cancelStepGpu F t = .ok u) : u.cap = t.cap := by
  unfold cancelStepGpu at h
  by_cases hg : t.gpuId.isSome = true
  · rw [if_pos hg] at h
    by_cases hf : (F.cancelFails || !t.windowAlive) = true
    · rw [if_pos hf] at h
      exact Except.noConfusion h
    rw [if_neg hf] at h
    injection h with he
    subst he
    rfl
  · rw [if_neg hg] at h
    injection h with he
    subst he
    rfl

theorem cleanupBody_ok_post (F : Faults) (s t : AppState)
    (h : cleanupBody F s = .ok t) :
    t.quitCalled = true ∧ t.windowAlive = false ∧ t.figClosed = true ∧
    t.cap.opened = false ∧
    t.cap = (if s.cap.isOpened then s.cap.release else s.cap) := by
  unfold cleanupBody at h
  obtain ⟨u1, h1, h⟩ := andThen_ok h
  obtain ⟨u2, h2, h⟩ := andThen_ok h
  obtain ⟨u3, h3, h⟩ := andThen_ok h
  obtain ⟨u4, h4, h⟩ := andThen_ok h
  obtain ⟨u5, h5, h⟩ := andThen_ok h
  obtain ⟨u6, h6, h⟩ := andThen_ok h
  obtain ⟨u7, h7, h⟩ := andThen_ok h
  obtain ⟨u8, h8, h⟩ := andThen_ok h
  have hcap4 : u4.cap = s.cap := by
    rw [cancelStepGpu_ok_inv h4, cancelStepCpu_ok_inv h3,
      cancelStepMemory_ok_inv h2, cancelStepVideo_ok_inv h1]
  unfold destroyStep at h
  by_cases hfd : (F.destroyFails || !u8.windowAlive) = true
  · rw [if_pos hfd] at h
    exact Except.noConfusion h
  rw [if_neg hfd] at h
  injection h with ht
  subst ht
  unfold quitStep at h8
  by_cases hfq : F.quitFails = true
  · rw [if_pos hfq] at h8
    exact Except.noConfusion h8
  rw [if_neg hfq] at h8
  injection h8 with h8e
  subst h8e
  unfold afterInfoStep at h7
  by_cases hwa : (!u6.windowAlive) = true
  · rw [if_pos hwa] at h7
    exact Except.noConfusion h7
  rw [if_neg hwa] at h7
  injection h7 with h7e
  subst h7e
  unfold closeFigStep at h6
  by_cases hff : F.closeFigFails = true
  · rw [if_pos hff] at h6
    exact Except.noConfusion h6
  rw [if_neg hff] at h6
  injection h6 with h6e
  subst h6e
  unfold releaseStep Cap.isOpened at h5
  by_cases hg : u4.cap.opened = true
  · rw [if_pos hg] at h5
    by_cases hfr : F.releaseFails = true
    · rw [if_pos hfr] at h5
      exact Except.noConfusion h5
    rw [if_neg hfr] at h5
    injection h5 with h5e
    subst h5e
    rw [hcap4] at hg
    refine ⟨rfl, rfl, rfl, ?_, ?_⟩
    · show (u4.cap.release).opened = false
      simp [Cap.release, hcap4, hg]
    · show u4.cap.release = (if s.cap.isOpened then s.cap.release else s.cap)
      simp [Cap.isOpened, hcap4, hg]
  · rw [if_neg hg] at h5
    injection h5 with h5e
    subst h5e
    have hgs : s.cap.opened = false := by
      rw [← hcap4]
      simpa using hg
    refine ⟨rfl, rfl, rfl, ?_, ?_⟩
    · show u4.cap.opened = false
      simpa using hg
    · show u4.cap = (if s.cap.isOpened then s.cap.release else s.cap)
      simp [Cap.isOpened, hcap4, hgs]

theorem aliveE_andThen_err {x : Except AppState AppState}
    {f : AppState → Except AppState AppState} (hx : AliveE x)
    (hf : ∀ t, t.windowAlive = true → AliveErr (f t)) :
    AliveErr (andThen x f) := by
  cases x with
  | ok t => exact hf t hx
  | error t => exact hx

theorem alive_cancel_video (F : Faults) (t : AppState)
    (h : t.windowAlive = true) : AliveE (cancelStepVideo F t) := by
  unfold cancelStepVideo
  split_ifs <;> exact h

theorem alive_cancel_memory (F : Faults) (t : AppState)
    (h : t.windowAlive = true) : AliveE (cancelStepMemory F t) := by
  unfold cancelStepMemory
  split_ifs <;> exact h

theorem alive_cancel_cpu (F : Faults) (t : AppState)
    (h : t.windowAlive = true) : AliveE (cancelStepCpu F t) := by
  unfold cancelStepCpu
  split_ifs <;> exact h

theorem alive_cancel_gpu (F : Faults) (t : AppState)
    (h : t.windowAlive = true) : AliveE (cancelStepGpu F t) := by
  unfold cancelStepGpu
  split_ifs <;> exact h

theorem alive_release (F : Faults) (t : AppState)
    (h : t.windowAlive = true) : AliveE (releaseStep F t) := by
  unfold releaseStep
  split_ifs <;> exact h

theorem alive_closeFig (F : Faults) (t : AppState)
    (h : t.windowAlive = true) : AliveE (closeFigStep F t) := by
  unfold closeFigStep
  split_ifs <;> exact h

theorem alive_afterInfo (t : AppState)
    (h : t.windowAlive = true) : AliveE (afterInfoStep t) := by
  unfold afterInfoStep
  split_ifs <;> exact h

theorem alive_quit (F : Faults) (t : AppState)
    (h : t.windowAlive = true) : AliveE (quitStep F t) := by
  unfold quitStep
  split_ifs <;> exact h

theorem alive_destroy (F : Faults) (t : AppState)
    (h : t.windowAlive = true) : AliveErr (destroyStep F t) := by
  unfold destroyStep
  split_ifs
  · exact h
  · trivial

theorem cleanupBody_err_alive (F : Faults) (s : AppState)
    (hw : s.windowAlive = true) : AliveErr (cleanupBody F s) := by
  unfold cleanupBody
  have h0 : ({ s with running := false } : AppState).windowAlive = true := hw
  refine aliveE_andThen_err (alive_cancel_video F _ h0) (fun t1 h1 => ?_)
  refine aliveE_andThen_err (alive_cancel_memory F _ h1) (fun t2 h2 => ?_)
  refine aliveE_andThen_err (alive_cancel_cpu F _ h2) (fun t3 h3 => ?_)
  refine aliveE_andThen_err (alive_cancel_gpu F _ h3) (fun t4 h4 => ?_)
  refine aliveE_andThen_err (alive_release F _ h4) (fun t5 h5 => ?_)
  refine aliveE_andThen_err (alive_closeFig F _ h5) (fun t6 h6 => ?_)
  refine aliveE_andThen_err (alive_afterInfo _ h6) (fun t7 h7 => ?_)
  refine aliveE_andThen_err (alive_quit F _ h7) (fun t8 h8 => ?_)
  exact alive_destroy F _ h8

theorem cleanupBody_noFaults_ok (s : AppState) (hw : s.windowAlive = true) :
    ∃ t, cleanupBody noFaults s = .ok t := by
  unfold cleanupBody cancelStepVideo cancelStepMemory cancelStepCpu
    cancelStepGpu releaseStep closeFigStep afterInfoStep quitStep destroyStep
    andThen noFaults Cap.isOpened
  by_cases h1 : s.videoId.isSome = true <;>
  by_cases h2 : s.memoryId.isSome = true <;>
  by_cases h3 : s.cpuId.isSome = true <;>
  by_cases h4 : s.gpuId.isSome = true <;>
  by_cases h5 : s.cap.opened = true <;>
    simp [h1, h2, h3, h4, h5, hw]

theorem cleanup_dead_window_raises (s : AppState)
    (hw : s.windowAlive = false) (hcap : s.cap.opened = false) :
    (cleanup noFaults s).2 = true ∧
    (cleanup noFaults s).1.cap = s.cap ∧
    (cleanup noFaults s).1.running = false := by
  unfold cleanup cleanupBody cancelStepVideo cancelStepMemory cancelStepCpu
    cancelStepGpu releaseStep closeFigStep afterInfoStep quitStep destroyStep
    andThen noFaults Cap.isOpened
  by_cases h1 : s.videoId.isSome = true <;>
  by_cases h2 : s.memoryId.isSome = true <;>
  by_cases h3 : s.cpuId.isSome = true <;>
  by_cases h4 : s.gpuId.isSome = true <;>
    simp [h1, h2, h3, h4, hw, hcap]

theorem loadTier_high_iff (p : ℚ) : loadTier p = Tier.high ↔ 80 < p := by
  unfold loadTier
  split_ifs with h1 h2
  · exact iff_of_true rfl h1
  · exact iff_of_false (by simp) h1
  · exact iff_of_false (by simp) h1

theorem loadTier_medium_iff (p : ℚ) :
    loadTier p = Tier.medium ↔ 60 < p ∧ p ≤ 80 := by
  unfold loadTier
  split_ifs with h1 h2
  · exact iff_of_false (by simp) (fun hc => absurd h1 (not_lt.mpr hc.2))
  · exact iff_of_true rfl ⟨h2, not_lt.mp h1⟩
  · exact iff_of_false (by simp) (fun hc => h2 hc.1)

theorem loadTier_normal_iff (p : ℚ) : loadTier p = Tier.normal ↔ p ≤ 60 := by
  unfold loadTier
  split_ifs with h1 h2
  · exact iff_of_false (by simp) (fun hc => absurd h1 (by linarith))
  · exact iff_of_false (by simp) (fun hc => absurd h2 (by linarith))
  · exact iff_of_true rfl (not_lt.mp h2)

theorem step_halted {s u : AppState} (hst : Step s u)
    (h : s.running = false) :
    u.running = false ∧ u.nextId = s.nextId ∧ writesOf u = writesOf s := by
  cases hst with
  | video scr ww wh hp =>
    unfold fireVideo update_video
    simp [h, writesOf]
  | memory mem hp =>
    unfold fireMemory update_memory_chart
    simp [h, writesOf]
  | cpu c hp =>
    unfold fireCpu update_cpu_load
    simp [h, writesOf]
  | gpu g hp =>
    unfold fireGpu update_gpu_load
    simp [h, writesOf]
  | close F =>
    have hp := cleanup_preserves F s
    exact ⟨hp.2.2.2.1, hp.1, by unfold writesOf; rw [hp.2.1]⟩
  | collect =>
    unfold appDel
    split_ifs <;> simp [writesOf, h]

theorem steps_halted {s t : AppState} (hst : Steps s t)
    (h : s.running = false) :
    t.running = false ∧ t.nextId = s.nextId ∧ writesOf t = writesOf s := by
  induction hst with
  | refl => exact ⟨h, rfl, rfl⟩
  | tail hst hstep ih =>
    obtain ⟨h1, h2, h3⟩ := ih
    obtain ⟨g1, g2, g3⟩ := step_halted hstep h1
    exact ⟨g1, g2.trans h2, g3.trans h3⟩

/- ------------------------------------------------------------------ -/
/- Claim theorems                                                     -/
/- ------------------------------------------------------------------ -/

/-- C7 counterexample: the tier at exactly 80 is medium, not high — the code
tests strict `percent > 80` (src/main.py:231) — and at exactly 60 it is
normal, not medium. -/
theorem load_tier_boundary :
    loadTier 80 = Tier.medium ∧ loadTier 60 = Tier.normal := by decide

/-- C7 amended: the gauge color tier is high for percentages strictly above
80, medium for percentages strictly above 60 and at most 80, and normal at or
below 60; in particular 85 is high, 65 is medium and 40 is normal, and the
CPU update path colors its bar with exactly this tier. -/
theorem load_tier_thresholds (p : ℚ) :
    (loadTier p = Tier.high ↔ 80 < p) ∧
    (loadTier p = Tier.medium ↔ 60 < p ∧ p ≤ 80) ∧
    (loadTier p = Tier.normal ↔ p ≤ 60) ∧
    loadTier 85 = Tier.high ∧ loadTier 65 = Tier.medium ∧
    loadTier 40 = Tier.normal ∧
    (update_cpu_load (some (p, 2400)) sTele).display.cpuColor
      = cpuTierColor (loadTier p) ∧
    (update_gpu_load (some [⟨p, 512, 50⟩]) sTele).display.gpuColor
      = gpuTierColor (loadTier (p * 100)) := by
  exact ⟨loadTier_high_iff p, loadTier_medium_iff p, loadTier_normal_iff p,
    by decide, by decide, by decide, rfl, rfl⟩

/-- C8: for every window size, including zero and negative sizes, the target
dimensions computed by `update_video` are at least the 320×240 minimum (so
never zero or negative) and keep the 4:3 aspect within one pixel: the height
is within 1 of three quarters of the width. -/
theorem frame_dims_min_and_aspect (ww wh : ℤ) :
    320 ≤ (computeTargetDims ww wh).1 ∧
    240 ≤ (computeTargetDims ww wh).2 ∧
    |((computeTargetDims ww wh).2 : ℚ) -
      ((computeTargetDims ww wh).1 : ℚ) * (3 / 4)| < 1 := by
  unfold computeTargetDims
  dsimp only
  have htw : (320 : ℤ) ≤ max 320 (ww - 4) := le_max_left _ _
  have hth : (240 : ℤ) ≤ max 240 (wh - 4) := le_max_left _ _
  set tw : ℤ := max 320 (ww - 4) with htwdef
  set th : ℤ := max 240 (wh - 4) with hthdef
  have htwQ : (320 : ℚ) ≤ (tw : ℚ) := by exact_mod_cast htw
  have hthQ : (240 : ℚ) ≤ (th : ℚ) := by exact_mod_cast hth
  split_ifs with hc
  · refine ⟨?_, hth, ?_⟩
    · exact Int.le_floor.mpr (by push_cast; linarith)
    · dsimp only
      have hfl : ((⌊(th : ℚ) * (4 / 3)⌋ : ℚ)) ≤ (th : ℚ) * (4 / 3) :=
        Int.floor_le _
      have hfl2 : (th : ℚ) * (4 / 3) < (⌊(th : ℚ) * (4 / 3)⌋ : ℚ) + 1 :=
        Int.lt_floor_add_one _
      rw [abs_lt]
      constructor <;> linarith
  · have hdiv : (tw : ℚ) / (4 / 3) = (tw : ℚ) * (3 / 4) := by ring
    refine ⟨htw, ?_, ?_⟩
    · exact Int.le_floor.mpr (by rw [hdiv]; push_cast; linarith)
    · dsimp only
      have hfl : ((⌊(tw : ℚ) / (4 / 3)⌋ : ℚ)) ≤ (tw : ℚ) / (4 / 3) :=
        Int.floor_le _
      have hfl2 : (tw : ℚ) / (4 / 3) < (⌊(tw : ℚ) / (4 / 3)⌋ : ℚ) + 1 :=
        Int.lt_floor_add_one _
      rw [abs_lt]
      constructor <;> linarith [hdiv, hfl, hfl2]

/-- C1 counterexample: with the 3-then-closed camera stub, after 4 scheduled
firings the display has received exactly 3 image writes, but the camera task
is NOT in Stopped state: its timer is pending again, because the code
reschedules even when `cap.read()` returns no frame (src/main.py:184-186) and
never inspects whether the device is permanently closed. -/
theorem camera_task_not_stopped_after_close :
    (camTaskRun 4).display.imageWrites = 3 ∧
    (camTaskRun 4).videoPending = true := by decide

/-- C1 amended: the code has no permanently-closed exception: a camera task
firing reschedules whenever `running` holds, whether or not the read
succeeded, so with a camera source succeeding for 3 samples and then
reporting closed, after 4 scheduled firings the display received exactly 3
image writes but the task is still Scheduled and keeps polling. -/
theorem camera_task_keeps_polling (scr : Nat → Bool) (ww wh : ℤ)
    (s : AppState) (h : s.running = true) :
    (fireVideo scr ww wh s).videoPending = true ∧
    (camTaskRun 4).display.imageWrites = 3 ∧
    (camTaskRun 4).videoPending = true := by
  refine ⟨?_, by decide, by decide⟩
  unfold fireVideo update_video schedVideo
  cases hco : s.cap.opened <;> cases hscr : scr s.camReads <;> simp_all

/-- Witness for the amended C1 at the dead camera stub. -/
theorem camera_task_keeps_polling_witness :
    (fireVideo camStubDead 450 670 sCam).videoPending = true ∧
    (camTaskRun 4).display.imageWrites = 3 :=
  ⟨(camera_task_keeps_polling camStubDead 450 670 sCam (by decide)).1,
   (camera_task_keeps_polling camStubDead 450 670 sCam (by decide)).2.1⟩

/-- C2 counterexample: when the capture fails to open, `__init__` starts no
update loop at all (all four update calls sit in the else branch,
src/main.py:122-128), so the telemetry tasks are NOT started, contrary to the
claim. -/
theorem init_no_camera_counterexample :
    initNoCam.memoryPending = false ∧
    initNoCam.cpuPending = false ∧
    initNoCam.gpuPending = false ∧
    initNoCam.videoPending = false ∧
    initNoCam.display.image = none := by decide

/-- C2 amended: at startup, if opening the camera fails, an error is printed
and nothing else happens — the video surface remains blank and NO update
loops are started, the telemetry loops included. -/
theorem init_camera_failure_starts_nothing (scr : Nat → Bool) (ww wh : ℤ)
    (mem : Option (ℚ × ℚ)) (cpu : Option (ℚ × ℚ))
    (gpus : Option (List GpuInfo)) :
    (appInit false scr ww wh mem cpu gpus).1.videoPending = false ∧
    (appInit false scr ww wh mem cpu gpus).1.memoryPending = false ∧
    (appInit false scr ww wh mem cpu gpus).1.cpuPending = false ∧
    (appInit false scr ww wh mem cpu gpus).1.gpuPending = false ∧
    (appInit false scr ww wh mem cpu gpus).1.display = display0 ∧
    (appInit false scr ww wh mem cpu gpus).1.logs = 1 ∧
    (appInit false scr ww wh mem cpu gpus).2 = false :=
  ⟨rfl, rfl, rfl, rfl, rfl, rfl, rfl⟩

/-- C4 counterexample: a firing of the memory task whose read fails pushes no
degraded display state and does not reschedule the task: `update_memory_chart`
has no try/except (src/main.py:188-214), so the exception escapes the firing
and the drawn chart is left as it was. -/
theorem memory_read_failure_kills_task :
    (fireMemory none sTele).memoryPending = false ∧
    (fireMemory none sTele).memRaises = 1 ∧
    (fireMemory none sTele).display.canvasPie = sTele.display.canvasPie ∧
    (fireMemory none sTele).display.chartDraws = sTele.display.chartDraws ∧
    (fireMemory none sTele).nextId = sTele.nextId := by decide

/-- C4 amended: a CPU or GPU firing whose read fails pushes a degraded
display state (an explicit Error label and a zero gauge), logs the failure,
and still reschedules; the memory task, however, has no local failure
handling: a failed memory read raises out of the firing, draws nothing, and
the task is not rescheduled. -/
theorem telemetry_failure_handling (s : AppState) (h : s.running = true) :
    (fireCpu none s).display.cpuLabel = CpuLabel.errorText ∧
    (fireCpu none s).display.cpuBar = 0 ∧
    (fireCpu none s).cpuPending = true ∧
    (fireCpu none s).logs = s.logs + 1 ∧
    (fireGpu none s).display.gpuLabel = GpuLabel.errorText ∧
    (fireGpu none s).display.gpuBar = 0 ∧
    (fireGpu none s).gpuPending = true ∧
    (fireGpu none s).logs = s.logs + 1 ∧
    (fireMemory none s).memoryPending = false ∧
    (fireMemory none s).memRaises = s.memRaises + 1 ∧
    (fireMemory none s).display.canvasPie = s.display.canvasPie ∧
    (fireMemory none s).display.chartDraws = s.display.chartDraws := by
  unfold fireCpu fireGpu fireMemory update_cpu_load update_gpu_load
    update_memory_chart schedCpu schedGpu
  simp [h]

/-- Witness for the amended C4 at the registered-telemetry state. -/
theorem telemetry_failure_handling_witness :
    (fireCpu none sTele).display.cpuLabel = CpuLabel.errorText ∧
    (fireMemory none sTele).memoryPending = false :=
  ⟨(telemetry_failure_handling sTele (by decide)).1,
   (telemetry_failure_handling sTele (by decide)).2.2.2.2.2.2.2.2.1⟩

/-- C9: a camera-task firing whose read returns no frame performs no write to
the display surface — the last-rendered image is left unchanged — and the
task still reschedules itself for the next interval (src/main.py:150-186). -/
theorem camera_failed_read_no_write (scr : Nat → Bool) (ww wh : ℤ)
    (s : AppState) (hrun : s.running = true)
    (hread : s.cap.opened && scr s.camReads = false) :
    (fireVideo scr ww wh s).display = s.display ∧
    (fireVideo scr ww wh s).videoPending = true ∧
    (fireVideo scr ww wh s).camReads = s.camReads + 1 := by
  unfold fireVideo update_video schedVideo
  cases hco : s.cap.opened <;> cases hscr : scr s.camReads <;> simp_all

/-- Witness for C9 at the dead camera stub. -/
theorem camera_failed_read_no_write_witness :
    (fireVideo camStubDead 450 670 sCam).display = sCam.display ∧
    (fireVideo camStubDead 450 670 sCam).videoPending = true :=
  ⟨(camera_failed_read_no_write camStubDead 450 670 sCam (by decide) (by decide)).1,
   (camera_failed_read_no_write camStubDead 450 670 sCam (by decide) (by decide)).2.1⟩

/-- C3: the stop-then-cancel transition is one-way.  From any state where the
`running` flag is false, no sequence of event-loop steps ever turns it true
again or allocates a new scheduled-handle (`nextId` stays fixed); and
starting from the state `cleanup` returns, every reachable state still has
`running = false` and exactly the same DisplaySurface write counters, so no
task performs any further surface write. -/
theorem shutdown_one_way (F : Faults) (s t u v : AppState)
    (h1 : u.running = false) (h2 : Steps u v)
    (h3 : Steps (cleanup F s).1 t) :
    v.running = false ∧ v.nextId = u.nextId ∧
    t.running = false ∧ writesOf t = writesOf (cleanup F s).1 := by
  have hu := steps_halted h2 h1
  have hc : (cleanup F s).1.running = false := (cleanup_preserves F s).2.2.2.1
  have ht := steps_halted h3 hc
  exact ⟨hu.1, hu.2.1, ht.1, ht.2.2⟩

/-- Witness for C3: a cleanup step taken from an already-cleaned state
produces no new surface writes. -/
theorem shutdown_one_way_witness :
    (cleanup noFaults ((cleanup noFaults (initState true)).1)).1.running
      = false ∧
    writesOf (cleanup noFaults ((cleanup noFaults (initState true)).1)).1
      = writesOf (cleanup noFaults (initState true)).1 := by
  have h := shutdown_one_way noFaults (initState true)
    (cleanup noFaults ((cleanup noFaults (initState true)).1)).1
    (cleanup noFaults (initState true)).1
    (cleanup noFaults (initState true)).1
    (by decide)
    (Steps.refl _)
    (Steps.tail (Steps.refl _) (Step.close noFaults))
  exact ⟨h.2.2.1, h.2.2.2⟩

/-- C5 counterexample: the shutdown steps are NOT independently
fault-tolerant — `cleanup` has one try block around all of them
(src/main.py:309-343), so when the camera `release()` raises, the chart
backend is never released (`plt.close` is skipped); and when the handler's
own `root.quit()` raises, cleanup raises past its caller. -/
theorem cleanup_not_fault_independent :
    (cleanup relFault (initState true)).1.figClosed = false ∧
    (cleanup relFault (initState true)).1.cap.isOpened = true ∧
    (cleanup quitFault (initState true)).2 = true := by decide

/-- C5 amended: `cleanup` runs the four shutdown steps in order inside a
single try/except: an exception in one step skips the remaining release
steps (release failing leaves the figure open; the figure step failing
happens after the camera was already released), the except handler then
force-quits and destroys the window, and — as long as the host window is
still alive when cleanup is invoked — cleanup returns without raising
whenever the handler's own quit/destroy calls succeed. -/
theorem cleanup_fault_barrier (F : Faults) (s : AppState)
    (hw : s.windowAlive = true)
    (hq : F.quitFails = false) (hd : F.destroyFails = false) :
    (cleanup F s).2 = false ∧
    (cleanup F s).1.running = false ∧
    (cleanup F s).1.quitCalled = true ∧
    (cleanup F s).1.windowAlive = false ∧
    (cleanup relFault (initState true)).1.figClosed = false ∧
    (cleanup figFault (initState true)).1.cap.isOpened = false ∧
    (cleanup figFault (initState true)).1.windowAlive = false := by
  have herr := cleanupBody_err_alive F s hw
  refine ⟨?_, (cleanup_preserves F s).2.2.2.1, ?_, ?_, by decide, by decide,
    by decide⟩
  · unfold cleanup
    cases hb : cleanupBody F s with
    | ok t => rfl
    | error t =>
      rw [hb] at herr
      have hW : t.windowAlive = true := herr
      simp [hq, hd, hW]
  · unfold cleanup
    cases hb : cleanupBody F s with
    | ok t => exact (cleanupBody_ok_post F s t hb).1
    | error t =>
      rw [hb] at herr
      have hW : t.windowAlive = true := herr
      simp [hq, hd, hW]
  · unfold cleanup
    cases hb : cleanupBody F s with
    | ok t => exact (cleanupBody_ok_post F s t hb).2.1
    | error t =>
      rw [hb] at herr
      have hW : t.windowAlive = true := herr
      simp [hq, hd, hW]

/-- Witness for the amended C5 with every step healthy. -/
theorem cleanup_fault_barrier_witness :
    (cleanup noFaults (initState true)).2 = false ∧
    (cleanup noFaults (initState true)).1.windowAlive = false :=
  ⟨(cleanup_fault_barrier noFaults (initState true) (by decide) (by decide)
      (by decide)).1,
   (cleanup_fault_barrier noFaults (initState true) (by decide) (by decide)
      (by decide)).2.2.2.1⟩

/-- C6 counterexample: shutdown invoked twice is NOT raise-free and does not
reproduce the first invocation's end state.  The program has no `terminated`
flag: the first `cleanup` ends by destroying the window, so the second
invocation's Tcl calls (`after_cancel` on the stale task ids, or the
`after info` call) raise `TclError`, and the except handler's unprotected
`root.destroy()` (src/main.py:343) re-raises past the caller — leaving an
extra cleanup-error log line behind. -/
theorem cleanup_not_idempotent_second_raises :
    (cleanup noFaults sTele).2 = false ∧
    (cleanup noFaults ((cleanup noFaults sTele).1)).2 = true ∧
    (cleanup noFaults ((cleanup noFaults sTele).1)).1.logs
      ≠ (cleanup noFaults sTele).1.logs := by decide

/-- C6 amended: the camera handle is released exactly once across both
invocations — once if it was open, never if it was not, never twice — because
the second invocation raises before touching the already-guarded, already
closed handle: with the window alive, the first `cleanup` returns without
raising, while the second invocation raises (its Tcl calls hit the destroyed
window and the handler's unprotected `destroy` re-raises), leaves the camera
handle exactly as the first invocation left it, and keeps `running` false. -/
theorem cleanup_twice_releases_once (s : AppState)
    (hw : s.windowAlive = true) :
    (cleanup noFaults s).2 = false ∧
    (cleanup noFaults ((cleanup noFaults s).1)).2 = true ∧
    (cleanup noFaults ((cleanup noFaults s).1)).1.cap
      = (cleanup noFaults s).1.cap ∧
    (cleanup noFaults ((cleanup noFaults s).1)).1.cap.releaseCount
      = s.cap.releaseCount + (if s.cap.opened then 1 else 0) ∧
    (cleanup noFaults ((cleanup noFaults s).1)).1.running = false := by
  obtain ⟨t, ht⟩ := cleanupBody_noFaults_ok s hw
  have hc : cleanup noFaults s = (t, false) := by
    unfold cleanup
    rw [ht]
  have hpost := cleanupBody_ok_post noFaults s t ht
  have hdead := cleanup_dead_window_raises t hpost.2.1 hpost.2.2.2.1
  rw [hc]
  dsimp only
  refine ⟨rfl, hdead.1, hdead.2.1, ?_, hdead.2.2⟩
  rw [hdead.2.1, hpost.2.2.2.2]
  by_cases ho : s.cap.opened <;> simp [Cap.isOpened, Cap.release, ho]

/-- Witness for the amended C6 at the registered-telemetry state. -/
theorem cleanup_twice_releases_once_witness :
    (cleanup noFaults sTele).2 = false ∧
    (cleanup noFaults ((cleanup noFaults sTele).1)).1.cap.releaseCount
      = sTele.cap.releaseCount + (if sTele.cap.opened then 1 else 0) :=
  ⟨(cleanup_twice_releases_once sTele (by decide)).1,
   (cleanup_twice_releases_once sTele (by decide)).2.2.2.1⟩

/-- C10: the camera `release()` is only ever invoked behind an
`isOpened()` guard, in `cleanup` (src/main.py:324-325) and in `__del__`
(src/main.py:347-348): neither path ever releases an unopened or
already-released capture (the unguarded-release counter never moves), the
destructor leaves the capture closed and releases it exactly when it was
still open — a second, collection-time release path when `cleanup` never
ran — and running the destructor after a clean `cleanup` changes nothing. -/
theorem camera_release_always_guarded (F : Faults) (s : AppState) :
    (cleanup F s).1.cap.releasedWhileClosed = s.cap.releasedWhileClosed ∧
    (appDel s).cap.releasedWhileClosed = s.cap.releasedWhileClosed ∧
    (appDel s).cap.opened = false ∧
    (appDel s).cap.releaseCount
      = s.cap.releaseCount + (if s.cap.opened then 1 else 0) ∧
    appDel ((cleanup noFaults { s with windowAlive := true }).1)
      = (cleanup noFaults { s with windowAlive := true }).1 := by
  refine ⟨(cleanup_preserves F s).2.2.1, ?_, ?_, ?_, ?_⟩
  · unfold appDel Cap.isOpened
    split_ifs with h <;> simp [Cap.release, h]
  · unfold appDel Cap.isOpened
    split_ifs with h <;> simp_all [Cap.release]
  · unfold appDel Cap.isOpened
    split_ifs with h <;> simp_all [Cap.release]
  · obtain ⟨t, ht⟩ := cleanupBody_noFaults_ok { s with windowAlive := true } rfl
    have hc : cleanup noFaults { s with windowAlive := true } = (t, false) := by
      unfold cleanup
      rw [ht]
    have hcap : t.cap.opened = false :=
      (cleanupBody_ok_post noFaults _ t ht).2.2.2.1
    rw [hc]
    unfold appDel Cap.isOpened
    simp [hcap]

end CameraDashboard
